import Mathlib

/-!
Shallow embedding of the RAG demo core in `advanced_example.py`:
the keyword-overlap `DocumentRetriever`, the `RAGPipeline` orchestrator,
the `ValidatedAnswering` module and the `ConversationManager`.
Strings are Lean `String`s (lists of unicode code points, matching Python
`str` code-point semantics for the ASCII data involved); machine behaviour
that matters (Python `str.split()`, `str.strip()`, `str.lower()`, list
`sort(reverse=True)` on `(score, doc)` tuples) is modelled explicitly.
-/

namespace DSPyRag

/-- Python `str.split()` with no argument: split on runs of whitespace,
dropping empty tokens.  `acc` holds the current word reversed. -/
def pyWordsAux : List Char → List Char → List String
  | [], acc => if acc.isEmpty then [] else [String.mk acc.reverse]
  | c :: cs, acc =>
    if c.isWhitespace then
      if acc.isEmpty then pyWordsAux cs [] else String.mk acc.reverse :: pyWordsAux cs []
    else pyWordsAux cs (c :: acc)

/-- Python `s.split()` on a string. -/
def pySplit (s : String) : List String := pyWordsAux s.data []

/-- Python `s.lower()` (ASCII case folding, which covers all corpora used here). -/
def pyLower (s : String) : String := String.mk (s.data.map Char.toLower)

/-- Python `s.strip()`: remove leading and trailing whitespace. -/
def pyStrip (s : String) : String :=
  String.mk (((s.data.dropWhile Char.isWhitespace).reverse.dropWhile Char.isWhitespace).reverse)

/-- `set(s.lower().split())`: the document/query word set, duplicates collapsed,
represented as a duplicate-free list. -/
def wordSet (s : String) : List String := (pySplit (pyLower s)).dedup

/-- `len(query_words & doc_words)`: the number of distinct words common to both
word sets (both arguments are duplicate-free lists). -/
def score (queryWords docWords : List String) : Nat :=
  (queryWords.filter fun w => decide (w ∈ docWords)).length

/-- Python string comparison `s < t`: lexicographic on code points. -/
def pyStrLt : List Char → List Char → Bool
  | _, [] => false
  | [], _ :: _ => true
  | a :: as, b :: bs =>
    if a.toNat < b.toNat then true
    else if b.toNat < a.toNat then false
    else pyStrLt as bs

/-- The ordering under which Python's `relevant_docs.sort(reverse=True)` lays
out `(score, doc)` tuples: `keyGe a b` holds when tuple `a` is
greater-or-equal to tuple `b` in Python tuple comparison
(first component integer order, second component code-point string order). -/
def keyGe (a b : Nat × String) : Prop :=
  b.1 < a.1 ∨ (a.1 = b.1 ∧ pyStrLt a.2.data b.2.data = false)

instance : DecidableRel keyGe := fun a b =>
  inferInstanceAs (Decidable (b.1 < a.1 ∨ (a.1 = b.1 ∧ pyStrLt a.2.data b.2.data = false)))

/-- Insert `x` into an already descending-sorted list, after every element
strictly greater than `x` (so equal elements keep their original relative
order, as in Python's stable sort). -/
def pyInsert (x : Nat × String) : List (Nat × String) → List (Nat × String)
  | [] => [x]
  | y :: l => if keyGe x y then x :: y :: l else y :: pyInsert x l

/-- Python `relevant_docs.sort(reverse=True)`: stable descending sort of the
scored tuples under Python tuple comparison. -/
def pySort : List (Nat × String) → List (Nat × String)
  | [] => []
  | x :: l => pyInsert x (pySort l)

/-- The `relevant_docs` list built by `DocumentRetriever.forward`:
each document of the corpus, in corpus order, paired with its overlap
score, keeping only documents with positive score. -/
def scoredDocs (documents : List String) (query : String) : List (Nat × String) :=
  documents.filterMap fun doc =>
    if 0 < score (wordSet query) (wordSet doc) then
      some (score (wordSet query) (wordSet doc), doc)
    else none

/-- `DocumentRetriever`: holds the fixed corpus given at construction. -/
structure DocumentRetriever where
  documents : List String
deriving DecidableEq

/-- `DocumentRetriever.forward` in explicit state-passing form: the method
only reads `self.documents` (it sorts the local `relevant_docs`, never the
corpus), so the returned retriever state is the input state unchanged. -/
def DocumentRetriever.forwardSt (self : DocumentRetriever) (query : String) (k : Nat) :
    List String × DocumentRetriever :=
  (((pySort (scoredDocs self.documents query)).take k).map Prod.snd, self)

/-- `DocumentRetriever.forward(query, k)`: top-`k` positively scoring
documents, sorted by `(score, doc)` tuple descending. -/
def DocumentRetriever.forward (self : DocumentRetriever) (query : String) (k : Nat) :
    List String :=
  (self.forwardSt query k).1

/-- The `dspy.Prediction(question=..., context=..., answer=...)` value
returned by `RAGPipeline.forward`. -/
structure Prediction where
  question : String
  context : String
  answer : String
deriving DecidableEq

/-- `RAGPipeline.forward(question)`: retrieve (with the default `k = 3`),
join the retrieved documents with newlines into `context`, call the
generation capability once on `(context, question)`.  The second component
records the `(context, question)` arguments of every generation call made
during the invocation, in order. -/
def ragForward (gen : String → String → String) (retriever : DocumentRetriever)
    (question : String) : Prediction × List (String × String) :=
  let contextDocs := retriever.forward question 3
  let context := String.intercalate "\n" contextDocs
  let answer := gen context question
  (⟨question, context, answer⟩, [(context, question)])

/-- `RAGPipeline.forward` against a generation capability that may fail:
the Python call either returns text or raises, and a raise propagates out
of `forward` uncaught (there is no try/except around the call). -/
def ragForwardE {ε : Type} (gen : String → String → Except ε String)
    (retriever : DocumentRetriever) (question : String) :
    Except ε Prediction × List (String × String) :=
  (match gen (String.intercalate "\n" (retriever.forward question 3)) question with
    | Except.error e => Except.error e
    | Except.ok answer =>
        Except.ok ⟨question, String.intercalate "\n" (retriever.forward question 3), answer⟩,
   [(String.intercalate "\n" (retriever.forward question 3), question)])

/-- The `ValueError`s raised by `ValidatedAnswering.forward`, by site:
empty/whitespace question, over-long question, empty/whitespace answer. -/
inductive VError where
  | emptyQuestion
  | questionTooLong
  | emptyAnswer
deriving DecidableEq

/-- The first two errors are input-validation failures (the spec's
`InvalidInputError`); the third is the spec's `EmptyGenerationError`. -/
def VError.isInvalidInput : VError → Bool
  | VError.emptyQuestion => true
  | VError.questionTooLong => true
  | VError.emptyAnswer => false

/-- Whether a `ValidatedAnswering.forward` outcome is an input-validation
failure. -/
def isInvalidInputResult : Except VError String → Bool
  | Except.error e => e.isInvalidInput
  | Except.ok _ => false

instance : DecidableEq (Except VError String) := fun a b =>
  match a, b with
  | Except.error x, Except.error y =>
      if h : x = y then isTrue (congrArg Except.error h)
      else isFalse fun hc => h (Except.error.inj hc)
  | Except.error _, Except.ok _ => isFalse fun hc => Except.noConfusion hc
  | Except.ok _, Except.error _ => isFalse fun hc => Except.noConfusion hc
  | Except.ok x, Except.ok y =>
      if h : x = y then isTrue (congrArg Except.ok h)
      else isFalse fun hc => h (Except.ok.inj hc)

/-- `ValidatedAnswering.forward(question)`: validate the input, call the
generation capability, validate the output.  The second component records
the question passed to every generation call made during the invocation. -/
def validatedForward (gen : String → String) (question : String) :
    Except VError String × List String :=
  if question = "" ∨ (pyStrip question).length = 0 then
    (Except.error VError.emptyQuestion, [])
  else if 1000 < question.length then
    (Except.error VError.questionTooLong, [])
  else
    let answer := gen question
    if answer = "" ∨ (pyStrip answer).length = 0 then
      (Except.error VError.emptyAnswer, [question])
    else
      (Except.ok answer, [question])

/-- One conversation turn, as stored in `ConversationManager.history`. -/
structure Turn where
  question : String
  answer : String
deriving DecidableEq

/-- `ConversationManager.add_turn(question, answer)`: append one turn. -/
def addTurn (history : List Turn) (question answer : String) : List Turn :=
  history ++ [⟨question, answer⟩]

/-- Python `self.history[-3:]`: the last three turns (the whole history when
it has fewer than three turns). -/
def lastThree (history : List Turn) : List Turn :=
  history.drop (history.length - 3)

/-- The f-string `f"Q: {turn['question']}\nA: {turn['answer']}"`. -/
def formatTurn (t : Turn) : String :=
  "Q: " ++ t.question ++ "\nA: " ++ t.answer

/-- The `history_text` built by `ConversationManager.forward`. -/
def historyText (history : List Turn) : String :=
  String.intercalate "\n" ((lastThree history).map formatTurn)

/-- The `history=` argument of the generation call: `history_text` when
non-empty, else the fixed conversation-start marker. -/
def renderedHistory (history : List Turn) : String :=
  if historyText history = "" then "（会話開始）" else historyText history

/-- `ConversationManager.forward(new_question)`: render the pre-call history,
call the generation capability on it, then append the new turn.  Returns the
response together with the post-call history. -/
def convForward (gen : String → String → String) (history : List Turn)
    (newQuestion : String) : String × List Turn :=
  let response := gen (renderedHistory history) newQuestion
  (response, addTurn history newQuestion response)

/-! ### Helper lemmas about the sort order -/

theorem pyStrLt_ge_total : ∀ a b : List Char, pyStrLt a b = false ∨ pyStrLt b a = false := by
  intro a
  induction a with
  | nil =>
    intro b
    cases b with
    | nil => left; rfl
    | cons c cs => right; rfl
  | cons x xs ih =>
    intro b
    cases b with
    | nil => left; rfl
    | cons y ys =>
      rcases Nat.lt_trichotomy x.toNat y.toNat with h | h | h
      · right
        simp [pyStrLt, h, Nat.lt_asymm h]
      · rcases ih ys with h2 | h2
        · left
          simp [pyStrLt, h, h2]
        · right
          simp [pyStrLt, h.symm, h2]
      · left
        simp [pyStrLt, h, Nat.lt_asymm h]

theorem pyStrLt_ge_trans : ∀ a b c : List Char,
    pyStrLt a b = false → pyStrLt b c = false → pyStrLt a c = false := by
  intro a
  induction a with
  | nil =>
    intro b c h1 h2
    cases b with
    | nil => exact h2
    | cons y ys => simp [pyStrLt] at h1
  | cons x xs ih =>
    intro b c h1 h2
    cases c with
    | nil => rfl
    | cons z zs =>
      cases b with
      | nil => simp [pyStrLt] at h2
      | cons y ys =>
        simp only [pyStrLt] at h1 h2 ⊢
        split_ifs at h1 h2 ⊢ <;>
          first
            | rfl
            | exact absurd h1 (by decide)
            | exact absurd h2 (by decide)
            | omega
            | exact ih ys zs h1 h2

theorem keyGe_total (a b : Nat × String) : keyGe a b ∨ keyGe b a := by
  rcases Nat.lt_trichotomy a.1 b.1 with h | h | h
  · right; left; exact h
  · rcases pyStrLt_ge_total a.2.data b.2.data with h2 | h2
    · left; right; exact ⟨h, h2⟩
    · right; right; exact ⟨h.symm, h2⟩
  · left; left; exact h

theorem keyGe_trans (a b c : Nat × String) (h1 : keyGe a b) (h2 : keyGe b c) : keyGe a c := by
  rcases h1 with h1 | ⟨h1e, h1s⟩
  · rcases h2 with h2 | ⟨h2e, _⟩
    · left; omega
    · left; omega
  · rcases h2 with h2 | ⟨h2e, h2s⟩
    · left; omega
    · right
      exact ⟨by omega, pyStrLt_ge_trans _ _ _ h1s h2s⟩

theorem pyInsert_perm (x : Nat × String) (l : List (Nat × String)) :
    List.Perm (pyInsert x l) (x :: l) := by
  induction l with
  | nil => exact List.Perm.refl _
  | cons y l ih =>
    by_cases h : keyGe x y
    · simp only [pyInsert, if_pos h]
      exact List.Perm.refl _
    · simp only [pyInsert, if_neg h]
      exact List.Perm.trans (List.Perm.cons y ih) (List.Perm.swap x y l)

theorem pySort_perm (l : List (Nat × String)) : List.Perm (pySort l) l := by
  induction l with
  | nil => exact List.Perm.nil
  | cons x l ih => exact List.Perm.trans (pyInsert_perm x (pySort l)) (List.Perm.cons x ih)

theorem pySort_length (l : List (Nat × String)) : (pySort l).length = l.length :=
  (pySort_perm l).length_eq

theorem pairwise_pyInsert (x : Nat × String) (l : List (Nat × String))
    (h : List.Pairwise keyGe l) : List.Pairwise keyGe (pyInsert x l) := by
  induction l with
  | nil => simp [pyInsert]
  | cons y l ih =>
    rcases List.pairwise_cons.mp h with ⟨hy, hl⟩
    by_cases hxy : keyGe x y
    · simp only [pyInsert, if_pos hxy]
      refine List.Pairwise.cons ?_ h
      intro z hz
      rcases List.mem_cons.mp hz with rfl | hz
      · exact hxy
      · exact keyGe_trans x y z hxy (hy z hz)
    · simp only [pyInsert, if_neg hxy]
      have hyx : keyGe y x := (keyGe_total x y).resolve_left hxy
      refine List.Pairwise.cons ?_ (ih hl)
      intro z hz
      have hz2 : z = x ∨ z ∈ l := by
        have := (pyInsert_perm x l).mem_iff.mp hz
        simpa using this
      rcases hz2 with rfl | hz'
      · exact hyx
      · exact hy z hz'

theorem pairwise_pySort (l : List (Nat × String)) : List.Pairwise keyGe (pySort l) := by
  induction l with
  | nil => exact List.Pairwise.nil
  | cons x l ih => exact pairwise_pyInsert x (pySort l) ih

/-! ### Helper lemmas about scoring and retrieval -/

theorem score_eq_inter_card (q d : String) :
    score (wordSet q) (wordSet d) =
      ((pySplit (pyLower q)).toFinset ∩ (pySplit (pyLower d)).toFinset).card := by
  have hnd : ((wordSet q).filter fun w => decide (w ∈ wordSet d)).Nodup :=
    List.Nodup.filter _ (List.nodup_dedup _)
  rw [score, ← List.toFinset_card_of_nodup hnd]
  congr 1
  ext w
  simp [wordSet, List.mem_filter, List.mem_dedup]

theorem scoredDocs_eq_nil (documents : List String) (query : String)
    (h : wordSet query = []) : scoredDocs documents query = [] := by
  induction documents with
  | nil => rfl
  | cons d ds ih =>
    have hscore : score (wordSet query) (wordSet d) = 0 := by
      rw [h]; rfl
    simp only [scoredDocs, List.filterMap_cons] at ih ⊢
    simp only [hscore, Nat.lt_irrefl, if_false]
    exact ih

theorem forward_eq_nil_of_no_words (r : DocumentRetriever) (query : String) (k : Nat)
    (h : pySplit (pyLower query) = []) : r.forward query k = [] := by
  have h2 : wordSet query = [] := by
    rw [wordSet, h]; rfl
  simp [DocumentRetriever.forward, DocumentRetriever.forwardSt,
    scoredDocs_eq_nil r.documents query h2, pySort]

theorem forward_complete (r : DocumentRetriever) (query : String) (k : Nat) (d : String)
    (hk : (scoredDocs r.documents query).length ≤ k) (hd : d ∈ r.documents)
    (hs : 0 < score (wordSet query) (wordSet d)) : d ∈ r.forward query k := by
  have hmem : (score (wordSet query) (wordSet d), d) ∈ scoredDocs r.documents query := by
    simp only [scoredDocs]
    exact List.mem_filterMap.mpr ⟨d, hd, by rw [if_pos hs]⟩
  have hsortmem : (score (wordSet query) (wordSet d), d)
      ∈ pySort (scoredDocs r.documents query) := (pySort_perm _).mem_iff.mpr hmem
  have hlen : (pySort (scoredDocs r.documents query)).length ≤ k := by
    rw [pySort_length]; exact hk
  show d ∈ ((pySort (scoredDocs r.documents query)).take k).map Prod.snd
  rw [List.take_of_length_le hlen]
  exact List.mem_map.mpr ⟨(score (wordSet query) (wordSet d), d), hsortmem, rfl⟩

theorem mem_forward (documents : List String) (query : String) (k : Nat) (d : String)
    (hd : d ∈ DocumentRetriever.forward ⟨documents⟩ query k) :
    d ∈ documents ∧ 0 < score (wordSet query) (wordSet d) := by
  simp only [DocumentRetriever.forward, DocumentRetriever.forwardSt] at hd
  obtain ⟨⟨s, doc⟩, hmem, rfl⟩ := List.mem_map.mp hd
  have h1 : (s, doc) ∈ pySort (scoredDocs documents query) := List.mem_of_mem_take hmem
  have h2 : (s, doc) ∈ scoredDocs documents query := (pySort_perm _).mem_iff.mp h1
  simp only [scoredDocs] at h2
  obtain ⟨doc2, hdoc2, hf⟩ := List.mem_filterMap.mp h2
  by_cases hs : 0 < score (wordSet query) (wordSet doc2)
  · rw [if_pos hs] at hf
    obtain ⟨hseq, hdeq⟩ := Prod.mk.injEq .. ▸ Option.some.inj hf
    subst hdeq
    exact ⟨hdoc2, hs⟩
  · rw [if_neg hs] at hf
    exact absurd hf (by simp)

/-! ### Claim theorems -/

set_option maxRecDepth 100000

/-- Claim C1, counterexample: on corpus `["the cat sat", "the dog ran",
"cats and dogs"]`, query `"cat dog"`, `k = 2`, the result is NOT
`["the cat sat", "the dog ran"]` — the two score-1 documents do not keep
their original corpus order, because `sort(reverse=True)` compares the whole
`(score, doc)` tuple and so breaks score ties by document text descending. -/
theorem C1_counterexample :
    ¬ DocumentRetriever.forward ⟨["the cat sat", "the dog ran", "cats and dogs"]⟩
        "cat dog" 2 = ["the cat sat", "the dog ran"] := by
  decide

/-- Claim C1, amended: `DocumentRetriever.forward` sorts the score-positive
documents by the whole `(score, document)` tuple descending — score
descending, with equal-score ties broken by document text in descending
code-point order, not by original corpus order; in particular, for the
example corpus, query `"cat dog"` and `k = 2`, the result is
`["the dog ran", "the cat sat"]`, with `"cats and dogs"` excluded. -/
theorem C1_sort_order :
    (∀ (documents : List String) (query : String) (k : Nat),
        List.Pairwise keyGe ((pySort (scoredDocs documents query)).take k)) ∧
      DocumentRetriever.forward ⟨["the cat sat", "the dog ran", "cats and dogs"]⟩
        "cat dog" 2 = ["the dog ran", "the cat sat"] := by
  constructor
  · intro documents query k
    exact List.Pairwise.sublist (List.take_sublist _ _) (pairwise_pySort _)
  · decide

/-- Claim C2: `RAGPipeline.forward` retrieves the top-3 documents, joins them
with newlines into the context (the empty string when nothing is retrieved),
invokes the generation capability exactly once on `(context, question)`, and
returns a value whose `question`, `context` and `answer` fields are the input
question, the joined context and the generated text; with a stub generation
capability and a corpus in which exactly one document matches, the context is
that document's text and the answer is the stub's fixed string. -/
theorem C2_rag_pipeline :
    (∀ (gen : String → String → String) (r : DocumentRetriever) (question : String),
        (ragForward gen r question).1.question = question ∧
          (ragForward gen r question).1.context =
            String.intercalate "\n" (r.forward question 3) ∧
          (ragForward gen r question).1.answer =
            gen (String.intercalate "\n" (r.forward question 3)) question ∧
          (ragForward gen r question).2 =
            [(String.intercalate "\n" (r.forward question 3), question)]) ∧
      (∀ (gen : String → String → String) (question : String),
        (ragForward gen ⟨[]⟩ question).1.context = "") ∧
      (ragForward (fun _ _ => "STUB") ⟨["alpha beta", "gamma delta"]⟩ "alpha").1.context
          = "alpha beta" ∧
      (ragForward (fun _ _ => "STUB") ⟨["alpha beta", "gamma delta"]⟩ "alpha").1.answer
          = "STUB" := by
  refine ⟨fun gen r question => ⟨rfl, rfl, rfl, rfl⟩, fun gen question => rfl, ?_, ?_⟩
  · decide
  · decide

/-- Claim C3: `ValidatedAnswering.forward` fails with an input-validation
error exactly when the question is empty/all-whitespace or longer than 1000
characters, and in that case the generation capability is never invoked
(the recorded generation-call list is empty); a 1000-character question is
accepted, a 1001-character one is rejected, and `""` and `"   "` are both
rejected. -/
theorem C3_input_validation :
    (∀ (gen : String → String) (question : String),
        (isInvalidInputResult (validatedForward gen question).1 = true ↔
          (pyStrip question).length = 0 ∨ 1000 < question.length) ∧
          (validatedForward gen question).2 =
            if (pyStrip question).length = 0 ∨ 1000 < question.length then []
            else [question]) ∧
      isInvalidInputResult (validatedForward (fun _ => "ok") "").1 = true ∧
      isInvalidInputResult (validatedForward (fun _ => "ok") "   ").1 = true ∧
      (validatedForward (fun _ => "ok") (String.mk (List.replicate 1000 'a'))).1
          = Except.ok "ok" ∧
      isInvalidInputResult
          (validatedForward (fun _ => "ok") (String.mk (List.replicate 1001 'a'))).1
        = true := by
  refine ⟨?_, by decide, by decide, by decide, by decide⟩
  intro gen question
  by_cases hq : (pyStrip question).length = 0
  · constructor
    · simp [validatedForward, hq, isInvalidInputResult, VError.isInvalidInput]
    · simp [validatedForward, hq]
  · have hq0 : ¬ question = "" := fun h => hq (by rw [h]; rfl)
    by_cases h2 : 1000 < question.length
    · constructor
      · simp [validatedForward, hq0, hq, h2, isInvalidInputResult, VError.isInvalidInput]
      · simp [validatedForward, hq0, hq, h2]
    · by_cases h3 : gen question = "" ∨ (pyStrip (gen question)).length = 0
      · rcases h3 with h3 | h3
        · constructor
          · simp [validatedForward, hq0, hq, h2, h3, isInvalidInputResult,
              VError.isInvalidInput]
          · simp [validatedForward, hq0, hq, h2, h3]
        · constructor
          · simp [validatedForward, hq0, hq, h2, h3, isInvalidInputResult,
              VError.isInvalidInput]
          · simp [validatedForward, hq0, hq, h2, h3]
      · have hg0 : ¬ gen question = "" := fun h => h3 (Or.inl h)
        have hgs : ¬ (pyStrip (gen question)).length = 0 := fun h => h3 (Or.inr h)
        constructor
        · simp [validatedForward, hq0, hq, h2, hg0, hgs, isInvalidInputResult]
        · simp [validatedForward, hq0, hq, h2, hg0, hgs]

/-- Claim C4: the retriever scores each document as the size of the
intersection of the query word set and the document word set (both obtained
by lowercasing and whitespace-splitting with duplicates collapsed), and every
document returned by `forward` is a corpus document with positive score
(score-0 documents are excluded). -/
theorem C4_scoring :
    (∀ q d : String,
        score (wordSet q) (wordSet d) =
          ((pySplit (pyLower q)).toFinset ∩ (pySplit (pyLower d)).toFinset).card) ∧
      ∀ (documents : List String) (query : String) (k : Nat) (d : String),
        d ∈ DocumentRetriever.forward ⟨documents⟩ query k →
          d ∈ documents ∧ 0 < score (wordSet query) (wordSet d) :=
  ⟨score_eq_inter_card, mem_forward⟩

/-- Witness for C4: `"the dog ran"` is returned for query `"cat dog"` on the
example corpus, and indeed lies in the corpus with positive score. -/
theorem C4_scoring_witness :
    "the dog ran" ∈ ["the cat sat", "the dog ran", "cats and dogs"] ∧
      0 < score (wordSet "cat dog") (wordSet "the dog ran") :=
  C4_scoring.2 ["the cat sat", "the dog ran", "cats and dogs"] "cat dog" 2 "the dog ran"
    (by decide)

/-- Claim C5: on a valid question, `ValidatedAnswering.forward` fails with the
empty-generation error exactly when the generation capability returns an
empty or all-whitespace answer, and in every such run the generation
capability was invoked exactly once (the recorded call list is exactly the
question), so the error is raised only after the generation call happened. -/
theorem C5_empty_generation :
    ∀ (gen : String → String) (question : String),
      (pyStrip question).length ≠ 0 → question.length ≤ 1000 →
        ((validatedForward gen question).1 = Except.error VError.emptyAnswer ↔
            (pyStrip (gen question)).length = 0) ∧
          (validatedForward gen question).2 = [question] := by
  intro gen question hq hlen
  have hq0 : ¬ question = "" := fun h => hq (by rw [h]; rfl)
  have h2 : ¬ 1000 < question.length := by omega
  by_cases h3 : (pyStrip (gen question)).length = 0
  · by_cases hg : gen question = ""
    · constructor
      · simp [validatedForward, hq0, hq, h2, hg, h3]
        rfl
      · simp [validatedForward, hq0, hq, h2, hg, h3]
    · constructor
      · simp [validatedForward, hq0, hq, h2, hg, h3]
      · simp [validatedForward, hq0, hq, h2, hg, h3]
  · have hg : ¬ gen question = "" := fun h => h3 (by rw [h]; rfl)
    constructor
    · simp [validatedForward, hq0, hq, h2, hg, h3]
    · simp [validatedForward, hq0, hq, h2, hg, h3]

/-- Witness for C5: with a stub generation capability returning `"   "`, the
valid question `"hi"` produces the empty-generation error, after exactly one
generation call. -/
theorem C5_empty_generation_witness :
    ((validatedForward (fun _ => "   ") "hi").1 = Except.error VError.emptyAnswer ↔
        (pyStrip "   ").length = 0) ∧
      (validatedForward (fun _ => "   ") "hi").2 = ["hi"] :=
  C5_empty_generation (fun _ => "   ") "hi" (by decide) (by decide)

/-- Claim C6: only the most recent 3 turns are rendered into the history
context (for a 5-turn history, exactly the last 3, and the rendered text is
built from them), `add_turn` appends exactly one turn, and `forward` never
removes turns: the post-call history is one turn longer and still starts
with the entire prior history. -/
theorem C6_conversation_window :
    (∀ history : List Turn, history.length = 5 →
        lastThree history = history.drop 2 ∧ (lastThree history).length = 3 ∧
          historyText history = String.intercalate "\n" ((history.drop 2).map formatTurn)) ∧
      (∀ (history : List Turn) (q a : String), addTurn history q a = history ++ [⟨q, a⟩]) ∧
      ∀ (gen : String → String → String) (history : List Turn) (q : String),
        (convForward gen history q).2.length = history.length + 1 ∧
          (convForward gen history q).2.take history.length = history := by
  refine ⟨?_, fun history q a => rfl, ?_⟩
  · intro history hlen
    have hd : lastThree history = history.drop 2 := by
      rw [lastThree, hlen]
    refine ⟨hd, ?_, by rw [historyText, hd]⟩
    rw [hd, List.length_drop, hlen]
  · intro gen history q
    constructor
    · simp [convForward, addTurn]
    · exact List.take_left history [⟨q, gen (renderedHistory history) q⟩]

/-- Witness for C6: a concrete 5-turn history renders exactly its last three
turns. -/
theorem C6_conversation_window_witness :
    lastThree [(⟨"q1", "a1"⟩ : Turn), ⟨"q2", "a2"⟩, ⟨"q3", "a3"⟩, ⟨"q4", "a4"⟩, ⟨"q5", "a5"⟩]
        = List.drop 2
            [(⟨"q1", "a1"⟩ : Turn), ⟨"q2", "a2"⟩, ⟨"q3", "a3"⟩, ⟨"q4", "a4"⟩, ⟨"q5", "a5"⟩] ∧
      (lastThree [(⟨"q1", "a1"⟩ : Turn), ⟨"q2", "a2"⟩, ⟨"q3", "a3"⟩, ⟨"q4", "a4"⟩,
          ⟨"q5", "a5"⟩]).length = 3 ∧
      historyText [(⟨"q1", "a1"⟩ : Turn), ⟨"q2", "a2"⟩, ⟨"q3", "a3"⟩, ⟨"q4", "a4"⟩,
          ⟨"q5", "a5"⟩]
        = String.intercalate "\n"
            ((List.drop 2 [(⟨"q1", "a1"⟩ : Turn), ⟨"q2", "a2"⟩, ⟨"q3", "a3"⟩, ⟨"q4", "a4"⟩,
              ⟨"q5", "a5"⟩]).map formatTurn) :=
  C6_conversation_window.1 _ (by decide)

/-- Claim C7: `DocumentRetriever.forward` is a pure, deterministic function of
(corpus, query, k): the state-passing rendering leaves the retriever (hence
the corpus) unchanged, and a second call on the post-call state returns the
identical ordered output. -/
theorem C7_retriever_pure :
    ∀ (r : DocumentRetriever) (query : String) (k : Nat),
      (r.forwardSt query k).2 = r ∧
        ((r.forwardSt query k).2.forwardSt query k).1 = (r.forwardSt query k).1 :=
  fun _ _ _ => ⟨rfl, rfl⟩

/-- Claim C8: the retriever returns the empty list on an empty corpus, on
`k = 0`, and on a query with no words; the result never holds more than
`min k |corpus|` documents; its length is exactly `min k m` where `m` is the
number of positively scoring documents; and when at most `k` documents score
positively, every positively scoring corpus document is returned (all
matches, no padding). -/
theorem C8_edge_cases :
    (∀ (query : String) (k : Nat), DocumentRetriever.forward ⟨[]⟩ query k = []) ∧
      (∀ (r : DocumentRetriever) (query : String), r.forward query 0 = []) ∧
      (∀ (r : DocumentRetriever) (query : String) (k : Nat),
        pySplit (pyLower query) = [] → r.forward query k = []) ∧
      (∀ (r : DocumentRetriever) (query : String) (k : Nat),
        (r.forward query k).length ≤ min k r.documents.length) ∧
      (∀ (r : DocumentRetriever) (query : String) (k : Nat),
        (r.forward query k).length = min k (scoredDocs r.documents query).length) ∧
      ∀ (r : DocumentRetriever) (query : String) (k : Nat) (d : String),
        (scoredDocs r.documents query).length ≤ k → d ∈ r.documents →
          0 < score (wordSet query) (wordSet d) → d ∈ r.forward query k := by
  have hlen : ∀ (r : DocumentRetriever) (query : String) (k : Nat),
      (r.forward query k).length = min k (scoredDocs r.documents query).length := by
    intro r query k
    have h1 : (r.forward query k).length
        = min k (pySort (scoredDocs r.documents query)).length := by
      simp [DocumentRetriever.forward, DocumentRetriever.forwardSt, List.length_take]
    rw [h1, pySort_length]
  refine ⟨?_, fun r query => rfl, fun r query k h => forward_eq_nil_of_no_words r query k h,
    ?_, hlen, fun r query k d hk hd hs => forward_complete r query k d hk hd hs⟩
  · intro query k
    simp [DocumentRetriever.forward, DocumentRetriever.forwardSt, scoredDocs, pySort]
  · intro r query k
    have h1 := hlen r query k
    have h3 : (scoredDocs r.documents query).length ≤ r.documents.length :=
      List.length_filterMap_le _ _
    omega

/-- Witness for C8: the all-whitespace query `"   "` splits into no words and
yields the empty result on a non-empty corpus; and on a two-document corpus
where only `"the cat sat"` matches query `"cat"` (one match, fewer than
`k = 3`), that matching document is returned. -/
theorem C8_edge_cases_witness :
    DocumentRetriever.forward ⟨["the cat sat"]⟩ "   " 3 = [] ∧
      "the cat sat" ∈ DocumentRetriever.forward ⟨["the cat sat", "the dog ran"]⟩ "cat" 3 :=
  ⟨C8_edge_cases.2.2.1 ⟨["the cat sat"]⟩ "   " 3 (by decide),
    C8_edge_cases.2.2.2.2.2 ⟨["the cat sat", "the dog ran"]⟩ "cat" 3 "the cat sat"
      (by decide) (by decide) (by decide)⟩

/-- Claim C9: if the generation capability fails during `RAGPipeline.forward`,
the failure value propagates to the caller unchanged (not caught, wrapped or
retried), and exactly one generation invocation was performed. -/
theorem C9_error_propagation :
    ∀ (ε : Type) (gen : String → String → Except ε String) (r : DocumentRetriever)
      (question : String) (e : ε),
      gen (String.intercalate "\n" (r.forward question 3)) question = Except.error e →
        (ragForwardE gen r question).1 = Except.error e ∧
          (ragForwardE gen r question).2 =
            [(String.intercalate "\n" (r.forward question 3), question)] := by
  intro ε gen r question e h
  constructor
  · simp only [ragForwardE, h]
  · rfl

/-- Witness for C9: a generation capability that always fails with `"boom"`
makes the pipeline return exactly that error, after one generation call. -/
theorem C9_error_propagation_witness :
    (ragForwardE (fun _ _ => Except.error "boom") ⟨[]⟩ "q").1 = Except.error "boom" ∧
      (ragForwardE (fun _ _ => Except.error "boom") ⟨[]⟩ "q").2 = [("", "q")] :=
  C9_error_propagation String (fun _ _ => Except.error "boom") ⟨[]⟩ "q" "boom" rfl

/-- Claim C10: `ConversationManager.forward` renders the history as it was
before the call — the generation capability is applied to the pre-call
rendered history, so the new turn never appears in its own context — and the
post-call history is exactly the prior history with the one new
(question, response) turn appended. -/
theorem C10_history_pre_state :
    ∀ (gen : String → String → String) (history : List Turn) (newQuestion : String),
      (convForward gen history newQuestion).1 = gen (renderedHistory history) newQuestion ∧
        (convForward gen history newQuestion).2 =
          history ++ [⟨newQuestion, (convForward gen history newQuestion).1⟩] :=
  fun _ _ _ => ⟨rfl, rfl⟩

end DSPyRag
